import Mathlib

/-!
Verification of the `StoppingTask` background job from
`scoutcloud/src/logic/jobs/stopping.rs`.

The job tears down a running deployment: it loads the deployment record,
checks that its status is `Running`, persists `Stopping`, issues the
external teardown call, waits (bounded polling) for the remote run to
finish, and reconciles the outcome into the persisted record
(`Stopped` on success, `Failed` with a cause text on any caught error).

Durations are modelled in whole seconds as `Nat`.  Fallible external
operations (database reads/writes, the GitHub teardown call, status
polls) are resolved by an explicit environment `Env` that fixes the
outcome of each operation, and the job is a pure function from the
environment and the persisted record to the returned result, the final
persisted record, and a trace of observable events (successful status
writes and the external teardown call).
-/

/-- The enum `DeploymentStatusType` from `scoutcloud_entity::sea_orm_active_enums`,
as matched in `stopping.rs`. -/
inductive DeploymentStatusType
  | created
  | pending
  | running
  | stopping
  | stopped
  | failed
deriving DecidableEq, Repr

/-- The persisted fields of one deployment record that the stopping job
reads and writes: the status enum and the optional error text. -/
structure DbState where
  status : DeploymentStatusType
  error : Option String
deriving DecidableEq, Repr

/-- Result of one poll of the external workflow run, from the spec's
`poll_status(RunHandle) -> {Pending, Succeeded, Failed(cause)}`. -/
inductive WorkflowStatus
  | pendingRun
  | succeeded
  | failedRun (cause : String)
deriving DecidableEq, Repr

/-- Outcome of the wait-for-completion protocol.  `timedOut` records how
many status polls were made and the elapsed (modelled) wait time at the
moment the deadline was detected.  `fuelOut` is a modelling artifact of
the fuel-bounded recursion; it is unreachable whenever the poll interval
is positive. -/
inductive WaitResult
  | success
  | runFailed (cause : String)
  | timedOut (polls elapsed : Nat)
  | fuelOut
deriving DecidableEq, Repr

/-- Modelled from the spec: the body of `GithubClient::wait_for_success_workflow`
(the Wait-For-Completion Protocol, spec section 4.2), whose source is not part
of this fragment.  Each iteration first checks whether the elapsed time has
exceeded the timeout (the deadline is checked between iterations), then polls
the run status, and on `Pending` sleeps for one poll interval and repeats.
`n` counts polls made so far, `elapsed` is the modelled elapsed time, and
`fuel` bounds the recursion. -/
def waitGo (poll : Nat → WorkflowStatus) (timeout interval : Nat) :
    Nat → Nat → Nat → WaitResult
  | 0, _, _ => .fuelOut
  | fuel + 1, n, elapsed =>
    if timeout < elapsed then .timedOut n elapsed
    else
      match poll n with
      | .succeeded => .success
      | .failedRun cause => .runFailed cause
      | .pendingRun => waitGo poll timeout interval fuel (n + 1) (elapsed + interval)

/-- Modelled from the spec: `wait_for_success_workflow(run, timeout, interval)`.
The fuel `timeout / interval + 2` is sufficient whenever the interval is
positive, because after `timeout / interval + 1` polls the elapsed time
exceeds the timeout. -/
def waitForSuccessWorkflow (poll : Nat → WorkflowStatus) (timeout interval : Nat) :
    WaitResult :=
  waitGo poll timeout interval (timeout / interval + 2) 0 0

/-- The error type `DeployError` as used by the stopping job: `Db` wraps storage failures,
`externalCall` a failure of `cleanup_via_github`, `runFailed` a remote run
that reported failure, `timeout` the wait deadline. -/
inductive DeployError
  | db
  | externalCall (msg : String)
  | runFailed (cause : String)
  | timeout
deriving DecidableEq, Repr

/-- Modelled from the spec: the human-readable rendering of a `DeployError`
(`Display`), used by `run` to build the persisted cause text. -/
def DeployError.text : DeployError → String
  | .db => "db error"
  | .externalCall msg => msg
  | .runFailed cause => cause
  | .timeout => "timeout"

/-- The outcome of every fallible external operation the job performs, fixed
up front: whether `Deployment::get` succeeds, whether `get_instance`
succeeds, whether the `update_status(Stopping)` write succeeds, the result
of `cleanup_via_github` (the cause text on failure), the status returned by
each poll of the remote run, whether `mark_as_finished` (the `Stopped`
write) succeeds, and whether `mark_as_error` (the `Failed` write)
succeeds. -/
structure Env where
  getOk : Bool
  getInstanceOk : Bool
  updateStatusOk : Bool
  cleanupResult : Except String Unit
  pollStatus : Nat → WorkflowStatus
  markFinishedOk : Bool
  markErrorOk : Bool

/-- Observable events of one job invocation: a successful persisted status
write, or the issuing of the external teardown call. -/
inductive Event
  | write (s : DeploymentStatusType)
  | externalCall
deriving DecidableEq, Repr

/-- The task struct `StoppingTask`: the serialized task fields (the test-only database URL
is omitted).  Durations are in seconds. -/
structure StoppingTask where
  deployment_id : Int
  workflow_timeout : Nat
  workflow_check_interval : Nat
deriving DecidableEq, Repr

/-- Constant `DEFAULT_WORKFLOW_TIMEOUT = Duration::from_secs(10 * 60)`. -/
def DEFAULT_WORKFLOW_TIMEOUT : Nat := 10 * 60

/-- Constant `DEFAULT_WORKFLOW_CHECK_INTERVAL = Duration::from_secs(5)`. -/
def DEFAULT_WORKFLOW_CHECK_INTERVAL : Nat := 5

/-- Constructor `StoppingTask::from_deployment_id`. -/
def StoppingTask.from_deployment_id (deployment_id : Int) : StoppingTask :=
  { deployment_id := deployment_id
    workflow_timeout := DEFAULT_WORKFLOW_TIMEOUT
    workflow_check_interval := DEFAULT_WORKFLOW_CHECK_INTERVAL }

/-- Modelled from the spec: `Deployment::mark_as_finished` — set status to
`Stopped`, clear any prior error, persist. -/
def markAsFinished : DbState :=
  { status := .stopped, error := none }

/-- Modelled from the spec: `Deployment::mark_as_error(db, text)` with
`text = format "failed to stop deployment: {err}"` — set status to
`Failed` with the error's textual description attached, persist. -/
def markAsError (e : DeployError) : DbState :=
  { status := .failed, error := some ("failed to stop deployment: " ++ e.text) }

/-- The method `StoppingTask::github_stop_and_wait`: persist `Stopping`, issue the
teardown call, wait for the run, persist `Stopped`.  Each step's failure
aborts the rest (the `?` operator).  The returned trace records the
successful status writes and the teardown call in order. -/
def githubStopAndWait (t : StoppingTask) (env : Env) (s : DbState) :
    Except DeployError Unit × DbState × List Event :=
  if env.updateStatusOk = false then (.error .db, s, [])
  else
    let s1 : DbState := { s with status := .stopping }
    match env.cleanupResult with
    | .error msg => (.error (.externalCall msg), s1, [.write .stopping, .externalCall])
    | .ok _ =>
      match waitForSuccessWorkflow env.pollStatus t.workflow_timeout
          t.workflow_check_interval with
      | .success =>
        if env.markFinishedOk then
          (.ok (), markAsFinished, [.write .stopping, .externalCall, .write .stopped])
        else (.error .db, s1, [.write .stopping, .externalCall])
      | .runFailed cause =>
        (.error (.runFailed cause), s1, [.write .stopping, .externalCall])
      | .timedOut _ _ => (.error .timeout, s1, [.write .stopping, .externalCall])
      | .fuelOut => (.error .timeout, s1, [.write .stopping, .externalCall])

/-- The method `StoppingTask::run`: load the deployment and its instance (storage
failures propagate as errors), dispatch on the status (`Running` enters
`github_stop_and_wait`; every other status returns `Ok` without touching
the record), and reconcile any error from `github_stop_and_wait` by
persisting `Failed` with the cause text — a failure of that final write
propagates as an error. -/
def StoppingTask.run (t : StoppingTask) (env : Env) (s : DbState) :
    Except DeployError Unit × DbState × List Event :=
  if env.getOk = false then (.error .db, s, [])
  else if env.getInstanceOk = false then (.error .db, s, [])
  else
    match s.status with
    | .running =>
      match githubStopAndWait t env s with
      | (.ok _, s1, tr) => (.ok (), s1, tr)
      | (.error e, s1, tr) =>
        if env.markErrorOk then (.ok (), markAsError e, tr ++ [.write .failed])
        else (.error .db, s1, tr)
    | _ => (.ok (), s, [])

/-- The sequence of statuses successfully persisted during a trace. -/
def statusWrites (tr : List Event) : List DeploymentStatusType :=
  tr.filterMap fun e =>
    match e with
    | .write s => some s
    | .externalCall => none

/-- Predicate: `stoppingBefore seen tr` holds when every external teardown call in
`tr` is preceded by a successful `Stopping` status write (`seen` records
whether one has already happened). -/
def stoppingBefore : Bool → List Event → Bool
  | _, [] => true
  | seen, .write s :: rest => stoppingBefore (seen || (s == .stopping)) rest
  | seen, .externalCall :: rest => seen && stoppingBefore seen rest

/-- C9: a task built by `from_deployment_id` carries the default overall
timeout of exactly 600 seconds (10 minutes) and the default poll interval
of exactly 5 seconds. -/
theorem from_deployment_id_defaults (id : Int) :
    (StoppingTask.from_deployment_id id).workflow_timeout = 600 ∧
    (StoppingTask.from_deployment_id id).workflow_check_interval = 5 :=
  ⟨rfl, rfl⟩

/-- Helper: the trace of one invocation is one of five concrete shapes, and
nonempty traces (and in particular the bare `Failed` write) only arise from
a deployment that was read as `Running`. -/
theorem run_trace_spec (t : StoppingTask) (env : Env) (s : DbState) :
    (t.run env s).2.2 = [] ∨
    ((t.run env s).2.2 = [.write .failed] ∧ s.status = .running ∧
      env.updateStatusOk = false) ∨
    (((t.run env s).2.2 = [.write .stopping, .externalCall] ∨
      (t.run env s).2.2 = [.write .stopping, .externalCall, .write .failed] ∨
      (t.run env s).2.2 = [.write .stopping, .externalCall, .write .stopped]) ∧
      s.status = .running) := by
  obtain ⟨g, gi, u, cr, ps, mf, me⟩ := env
  obtain ⟨st, err⟩ := s
  unfold StoppingTask.run githubStopAndWait
  cases g <;> cases gi <;> simp
  cases st <;> simp
  cases u <;> simp
  · cases me <;> simp
  · cases cr <;> simp
    · cases me <;> simp
    · cases waitForSuccessWorkflow ps t.workflow_timeout t.workflow_check_interval <;>
        cases mf <;> cases me <;> simp

/-- C1: for a deployment read as `Running` whose external teardown run
succeeds within the configured timeout (the wait protocol returns
success) and whose storage operations succeed, the job persists
`Stopped` with the error field cleared and returns success to the
runner, after the write of `Stopping` and the external call. -/
theorem run_success_path (t : StoppingTask) (env : Env) (s : DbState)
    (hs : s.status = .running)
    (hget : env.getOk = true)
    (hinst : env.getInstanceOk = true)
    (hupd : env.updateStatusOk = true)
    (hclean : env.cleanupResult = .ok ())
    (hwait : waitForSuccessWorkflow env.pollStatus t.workflow_timeout
      t.workflow_check_interval = .success)
    (hfin : env.markFinishedOk = true) :
    t.run env s = (.ok (), { status := .stopped, error := none },
      [.write .stopping, .externalCall, .write .stopped]) := by
  unfold StoppingTask.run githubStopAndWait
  simp [hs, hget, hinst, hupd, hclean, hwait, hfin, markAsFinished]

/-- Witness for C1 at a concrete input: deployment running, every external
operation succeeds, the first poll reports success. -/
theorem run_success_path_witness :
    StoppingTask.run (StoppingTask.from_deployment_id 1)
      { getOk := true, getInstanceOk := true, updateStatusOk := true,
        cleanupResult := .ok (), pollStatus := fun _ => .succeeded,
        markFinishedOk := true, markErrorOk := true }
      { status := .running, error := none } =
      (.ok (), { status := .stopped, error := none },
        [.write .stopping, .externalCall, .write .stopped]) :=
  run_success_path _ _ _ rfl rfl rfl rfl rfl rfl rfl

/-- C2: any error arising after the `Stopping` transition has been
persisted — failure of the teardown call, the remote run reporting
failure, or the wait timing out — is caught locally: the deployment is
persisted as `Failed` with a textual description of the cause attached,
and the job returns success to the runner. -/
theorem post_stopping_errors_reconciled (t : StoppingTask) (env : Env) (s : DbState)
    (hs : s.status = .running)
    (hget : env.getOk = true)
    (hinst : env.getInstanceOk = true)
    (hupd : env.updateStatusOk = true)
    (hme : env.markErrorOk = true)
    (herr : (∃ m, env.cleanupResult = .error m) ∨
      (∃ c, waitForSuccessWorkflow env.pollStatus t.workflow_timeout
        t.workflow_check_interval = .runFailed c) ∨
      (∃ p el, waitForSuccessWorkflow env.pollStatus t.workflow_timeout
        t.workflow_check_interval = .timedOut p el)) :
    (t.run env s).1 = .ok () ∧ (t.run env s).2.1.status = .failed ∧
    ∃ msg, (t.run env s).2.1.error =
      some ("failed to stop deployment: " ++ msg) := by
  unfold StoppingTask.run githubStopAndWait
  cases hcr : env.cleanupResult with
  | error m =>
    simp [hs, hget, hinst, hupd, hme, markAsError, DeployError.text]
  | ok u =>
    rcases herr with ⟨m, hc⟩ | ⟨c, hw⟩ | ⟨p, el, hw⟩
    · rw [hcr] at hc; cases hc
    · simp [hs, hget, hinst, hupd, hme, hw, markAsError, DeployError.text]
    · simp [hs, hget, hinst, hupd, hme, hw, markAsError, DeployError.text]
      exact ⟨"timeout", rfl⟩

/-- Witness for C2 at a concrete input: the teardown call itself fails. -/
theorem post_stopping_errors_reconciled_witness :
    (StoppingTask.run (StoppingTask.from_deployment_id 1)
      { getOk := true, getInstanceOk := true, updateStatusOk := true,
        cleanupResult := .error ("teardown rejected"),
        pollStatus := fun _ => .pendingRun,
        markFinishedOk := true, markErrorOk := true }
      { status := .running, error := none }).1 = .ok () ∧
    (StoppingTask.run (StoppingTask.from_deployment_id 1)
      { getOk := true, getInstanceOk := true, updateStatusOk := true,
        cleanupResult := .error ("teardown rejected"),
        pollStatus := fun _ => .pendingRun,
        markFinishedOk := true, markErrorOk := true }
      { status := .running, error := none }).2.1.status = .failed ∧
    ∃ msg, (StoppingTask.run (StoppingTask.from_deployment_id 1)
      { getOk := true, getInstanceOk := true, updateStatusOk := true,
        cleanupResult := .error ("teardown rejected"),
        pollStatus := fun _ => .pendingRun,
        markFinishedOk := true, markErrorOk := true }
      { status := .running, error := none }).2.1.error =
      some ("failed to stop deployment: " ++ msg) :=
  post_stopping_errors_reconciled _ _ _ rfl rfl rfl rfl rfl
    (Or.inl ⟨"teardown rejected", rfl⟩)

/-- C3: for a deployment whose status is anything other than `Running`
(and whose initial load succeeds), the job leaves the record exactly as
it was, performs no status write and no external teardown call, and
returns success to the runner.  (The warning log is outside the model.) -/
theorem run_non_running_noop (t : StoppingTask) (env : Env) (s : DbState)
    (hs : s.status ≠ .running)
    (hget : env.getOk = true)
    (hinst : env.getInstanceOk = true) :
    t.run env s = (.ok (), s, []) := by
  obtain ⟨st, err⟩ := s
  unfold StoppingTask.run
  cases st <;> simp_all

/-- Witness for C3 at a concrete input: an already-stopped deployment with a
stale error text is left untouched. -/
theorem run_non_running_noop_witness :
    StoppingTask.run (StoppingTask.from_deployment_id 7)
      { getOk := true, getInstanceOk := true, updateStatusOk := true,
        cleanupResult := .ok (), pollStatus := fun _ => .succeeded,
        markFinishedOk := true, markErrorOk := true }
      { status := .stopped, error := some ("old failure") } =
      (.ok (), { status := .stopped, error := some ("old failure") }, []) :=
  run_non_running_noop _ _ _ (by simp) rfl rfl

/-- The transition paths the spec allows for the stopping job: no write at
all, or `Stopping` alone, or `Stopping` followed by one terminal write. -/
def stoppingPath (w : List DeploymentStatusType) : Prop :=
  w = [] ∨ w = [.stopping] ∨ w = [.stopping, .stopped] ∨ w = [.stopping, .failed]

instance (w : List DeploymentStatusType) : Decidable (stoppingPath w) := by
  unfold stoppingPath
  infer_instance

/-- C4 counterexample: with a `Running` deployment whose `Stopping` status
write fails with a storage error, the reconciliation branch persists
`Failed` directly — the persisted write sequence is `[Failed]`, which is
outside the claimed `Running → Stopping → (Stopped | Failed)` paths. -/
theorem transition_path_counterexample :
    ¬ stoppingPath (statusWrites (StoppingTask.run
      (StoppingTask.from_deployment_id 1)
      { getOk := true, getInstanceOk := true, updateStatusOk := false,
        cleanupResult := .ok (), pollStatus := fun _ => .pendingRun,
        markFinishedOk := true, markErrorOk := true }
      { status := .running, error := none }).2.2) := by
  decide

/-- C4 amended: every persisted write sequence of the job is one of the
spec's paths (`[]`, `[Stopping]`, `[Stopping, Stopped]`,
`[Stopping, Failed]`), except that when the deployment was read as
`Running` and the `Stopping` write itself failed, the sequence may be the
bare `[Failed]`; moreover any write at all implies the deployment was
read as `Running`. -/
theorem transition_path_amended (t : StoppingTask) (env : Env) (s : DbState) :
    (stoppingPath (statusWrites (t.run env s).2.2) ∨
      (statusWrites (t.run env s).2.2 = [.failed] ∧ s.status = .running ∧
        env.updateStatusOk = false)) ∧
    (statusWrites (t.run env s).2.2 ≠ [] → s.status = .running) := by
  rcases run_trace_spec t env s with h | ⟨h, hs, hu⟩ | ⟨h, hs⟩
  · rw [h]
    exact ⟨Or.inl (Or.inl rfl), fun hne => absurd rfl hne⟩
  · rw [h]
    exact ⟨Or.inr ⟨rfl, hs, hu⟩, fun _ => hs⟩
  · refine ⟨Or.inl ?_, fun _ => hs⟩
    rcases h with h | h | h <;> rw [h]
    · exact Or.inr (Or.inl rfl)
    · exact Or.inr (Or.inr (Or.inr rfl))
    · exact Or.inr (Or.inr (Or.inl rfl))

/-- Witness for C4 (amended) at a concrete input: on the happy path the
write sequence is `[Stopping, Stopped]`, which is nonempty, so the
deployment must have been read as `Running`. -/
theorem transition_path_amended_witness :
    DbState.status { status := .running, error := none } =
      DeploymentStatusType.running :=
  (transition_path_amended (StoppingTask.from_deployment_id 1)
    { getOk := true, getInstanceOk := true, updateStatusOk := true,
      cleanupResult := .ok (), pollStatus := fun _ => .succeeded,
      markFinishedOk := true, markErrorOk := true }
    { status := .running, error := none }).2 (by decide)

/-- C5: in every invocation, the external teardown call only ever appears
in the trace after a successful persisted write of `Stopping`. -/
theorem external_call_after_stopping (t : StoppingTask) (env : Env) (s : DbState) :
    stoppingBefore false (t.run env s).2.2 = true := by
  rcases run_trace_spec t env s with h | ⟨h, _, _⟩ | ⟨h, _⟩
  · rw [h]; rfl
  · rw [h]; rfl
  · rcases h with h | h | h <;> rw [h] <;> rfl

/-- C6 counterexample: a storage failure of the very write that sets
`Stopping` is not propagated to the runner — the job catches it, persists
`Failed` with the cause text, and returns success. -/
theorem db_failure_swallowed_counterexample :
    StoppingTask.run (StoppingTask.from_deployment_id 1)
      { getOk := true, getInstanceOk := true, updateStatusOk := false,
        cleanupResult := .ok (), pollStatus := fun _ => .pendingRun,
        markFinishedOk := true, markErrorOk := true }
      { status := .running, error := none } =
      (.ok (),
        { status := .failed, error := some ("failed to stop deployment: db error") },
        [.write .failed]) := by
  rfl

/-- C6 amended: storage failures during the initial load (the deployment
read or the instance read) are propagated as fatal errors of the
invocation with nothing persisted; a storage failure of the write that
sets `Stopping`, by contrast, is caught by the reconciliation branch:
the deployment is persisted as `Failed` with the cause text and the job
returns success, unless the `Failed` write itself also fails, in which
case the error propagates. -/
theorem db_failure_amended (t : StoppingTask) (env : Env) (s : DbState) :
    (env.getOk = false → t.run env s = (.error .db, s, [])) ∧
    (env.getOk = true → env.getInstanceOk = false →
      t.run env s = (.error .db, s, [])) ∧
    (s.status = .running → env.getOk = true → env.getInstanceOk = true →
      env.updateStatusOk = false → env.markErrorOk = true →
      t.run env s = (.ok (), markAsError .db, [.write .failed])) ∧
    (s.status = .running → env.getOk = true → env.getInstanceOk = true →
      env.updateStatusOk = false → env.markErrorOk = false →
      t.run env s = (.error .db, s, [])) := by
  refine ⟨fun hg => ?_, fun hg hgi => ?_, fun hs hg hgi hu hme => ?_,
    fun hs hg hgi hu hme => ?_⟩ <;>
    unfold StoppingTask.run githubStopAndWait <;>
    simp [*]

/-- Witness for C6 (amended), third conjunct at a concrete input: the
`Stopping` write fails, `Failed` is persisted, the job returns success. -/
theorem db_failure_amended_witness :
    StoppingTask.run (StoppingTask.from_deployment_id 2)
      { getOk := true, getInstanceOk := true, updateStatusOk := false,
        cleanupResult := .error ("unreached"), pollStatus := fun _ => .pendingRun,
        markFinishedOk := false, markErrorOk := true }
      { status := .running, error := none } =
      (.ok (), markAsError .db, [.write .failed]) :=
  (db_failure_amended (StoppingTask.from_deployment_id 2)
    { getOk := true, getInstanceOk := true, updateStatusOk := false,
      cleanupResult := .error ("unreached"), pollStatus := fun _ => .pendingRun,
      markFinishedOk := false, markErrorOk := true }
    { status := .running, error := none }).2.2.1 rfl rfl rfl rfl rfl

/-- C7: when an error was caught on the post-read path and the
reconciliation write persisting `Failed` itself fails with a storage
error, the invocation returns that storage failure as a fatal error to
the runner instead of success. -/
theorem reconciliation_write_failure_fatal (t : StoppingTask) (env : Env)
    (s : DbState) (e : DeployError)
    (hs : s.status = .running)
    (hget : env.getOk = true)
    (hinst : env.getInstanceOk = true)
    (hme : env.markErrorOk = false)
    (herr : (githubStopAndWait t env s).1 = .error e) :
    (t.run env s).1 = .error .db := by
  unfold StoppingTask.run
  rcases hg : githubStopAndWait t env s with ⟨r, s1, tr⟩
  rw [hg] at herr
  simp at herr
  subst herr
  simp [hs, hget, hinst, hg, hme]

/-- Witness for C7 at a concrete input: the teardown call fails and the
`Failed` write also fails, so the invocation errors out. -/
theorem reconciliation_write_failure_fatal_witness :
    (StoppingTask.run (StoppingTask.from_deployment_id 3)
      { getOk := true, getInstanceOk := true, updateStatusOk := true,
        cleanupResult := .error ("boom"), pollStatus := fun _ => .pendingRun,
        markFinishedOk := true, markErrorOk := false }
      { status := .running, error := none }).1 = .error .db :=
  reconciliation_write_failure_fatal (StoppingTask.from_deployment_id 3)
    { getOk := true, getInstanceOk := true, updateStatusOk := true,
      cleanupResult := .error ("boom"), pollStatus := fun _ => .pendingRun,
      markFinishedOk := true, markErrorOk := false }
    { status := .running, error := none } (.externalCall ("boom"))
    rfl rfl rfl rfl rfl

/-- C10: when the external teardown run succeeds but the final write
persisting `Stopped` fails with a storage error, that error is caught by
the same reconciliation branch as external failures: the deployment is
persisted as `Failed` with the cause text and the job returns success;
the storage failure only propagates if the `Failed` write also fails. -/
theorem stopped_write_failure_reconciled (t : StoppingTask) (env : Env)
    (s : DbState)
    (hs : s.status = .running)
    (hget : env.getOk = true)
    (hinst : env.getInstanceOk = true)
    (hupd : env.updateStatusOk = true)
    (hclean : env.cleanupResult = .ok ())
    (hwait : waitForSuccessWorkflow env.pollStatus t.workflow_timeout
      t.workflow_check_interval = .success)
    (hfin : env.markFinishedOk = false) :
    (env.markErrorOk = true →
      t.run env s = (.ok (), markAsError .db,
        [.write .stopping, .externalCall, .write .failed])) ∧
    (env.markErrorOk = false → (t.run env s).1 = .error .db) := by
  constructor <;> intro hme <;>
    unfold StoppingTask.run githubStopAndWait <;>
    simp [hs, hget, hinst, hupd, hclean, hwait, hfin, hme]

/-- Witness for C10 at a concrete input: teardown succeeds, the `Stopped`
write fails, and the deployment ends recorded as `Failed` while the job
reports success. -/
theorem stopped_write_failure_reconciled_witness :
    StoppingTask.run (StoppingTask.from_deployment_id 4)
      { getOk := true, getInstanceOk := true, updateStatusOk := true,
        cleanupResult := .ok (), pollStatus := fun _ => .succeeded,
        markFinishedOk := false, markErrorOk := true }
      { status := .running, error := none } =
      (.ok (), markAsError .db,
        [.write .stopping, .externalCall, .write .failed]) :=
  (stopped_write_failure_reconciled (StoppingTask.from_deployment_id 4)
    { getOk := true, getInstanceOk := true, updateStatusOk := true,
      cleanupResult := .ok (), pollStatus := fun _ => .succeeded,
      markFinishedOk := false, markErrorOk := true }
    { status := .running, error := none }
    rfl rfl rfl rfl rfl rfl rfl).1 rfl

/-- Helper: when every poll reports `Pending` and the interval is positive,
the wait loop with elapsed time `n * interval` after `n` polls ends in a
timeout after exactly `timeout / interval + 1` polls, at elapsed time
`(timeout / interval + 1) * interval`. -/
theorem waitGo_all_pending (poll : Nat → WorkflowStatus) (tmo itv : Nat)
    (hp : ∀ n, poll n = .pendingRun) (hi : 0 < itv) :
    ∀ fuel n, tmo / itv + 1 - n < fuel → n * itv ≤ tmo →
      waitGo poll tmo itv fuel n (n * itv) =
        .timedOut (tmo / itv + 1) ((tmo / itv + 1) * itv) := by
  intro fuel
  induction fuel with
  | zero => intro n hfuel _; omega
  | succ fuel ih =>
    intro n hfuel hle
    have hnd : n ≤ tmo / itv := (Nat.le_div_iff_mul_le hi).mpr hle
    rw [waitGo, if_neg (Nat.not_lt.mpr hle), hp n]
    have hstep : n * itv + itv = (n + 1) * itv := (Nat.succ_mul n itv).symm
    rw [hstep]
    by_cases h2 : (n + 1) * itv ≤ tmo
    · exact ih (n + 1) (by omega) h2
    · have hlt : tmo < (n + 1) * itv := Nat.not_le.mp h2
      have hdn : tmo / itv ≤ n := by
        have := (Nat.div_lt_iff_lt_mul hi).mpr hlt
        omega
      have hn : n = tmo / itv := Nat.le_antisymm hdn hnd |>.symm
      subst hn
      obtain ⟨fuel2, rfl⟩ : ∃ f, fuel = f + 1 := ⟨fuel - 1, by omega⟩
      rw [waitGo, if_pos hlt]

/-- Helper: under an always-pending poll and a positive interval, the wait
protocol returns a timeout after exactly `timeout / interval + 1` polls at
elapsed time `(timeout / interval + 1) * interval`. -/
theorem waitForSuccessWorkflow_all_pending (poll : Nat → WorkflowStatus)
    (tmo itv : Nat) (hp : ∀ n, poll n = .pendingRun) (hi : 0 < itv) :
    waitForSuccessWorkflow poll tmo itv =
      .timedOut (tmo / itv + 1) ((tmo / itv + 1) * itv) := by
  have h := waitGo_all_pending poll tmo itv hp hi (tmo / itv + 2) 0
    (by rw [Nat.sub_zero]; exact Nat.lt_succ_self _) (by simp)
  rw [waitForSuccessWorkflow]
  rw [Nat.zero_mul] at h
  exact h

/-- Helper: the elapsed time at which the timeout is detected strictly
exceeds the timeout. -/
theorem timeout_elapsed_gt (tmo itv : Nat) (hi : 0 < itv) :
    tmo < (tmo / itv + 1) * itv := by
  have h1 : tmo / itv * itv + tmo % itv = tmo := Nat.div_add_mod' tmo itv
  have h2 : tmo % itv < itv := Nat.mod_lt _ hi
  have h3 : (tmo / itv + 1) * itv = tmo / itv * itv + itv := Nat.succ_mul _ _
  rw [h3]
  omega

/-- Helper: the elapsed time at which the timeout is detected exceeds the
timeout by at most one poll interval. -/
theorem timeout_elapsed_le (tmo itv : Nat) :
    (tmo / itv + 1) * itv ≤ tmo + itv := by
  have h1 : tmo / itv * itv ≤ tmo := Nat.div_mul_le_self tmo itv
  have h3 : (tmo / itv + 1) * itv = tmo / itv * itv + itv := Nat.succ_mul _ _
  omega

/-- C8: for a `Running` deployment whose external run never reaches a
terminal state (every poll reports pending) and a positive poll interval,
the wait protocol returns a timeout failure after exactly
`timeout / interval + 1` status polls, at an elapsed wait that exceeds the
timeout by at most one poll interval, and the job persists `Failed` with an
error text indicating a timeout while returning success to the runner. -/
theorem timeout_path (t : StoppingTask) (env : Env) (s : DbState)
    (hs : s.status = .running)
    (hget : env.getOk = true)
    (hinst : env.getInstanceOk = true)
    (hupd : env.updateStatusOk = true)
    (hclean : env.cleanupResult = .ok ())
    (hp : ∀ n, env.pollStatus n = .pendingRun)
    (hi : 0 < t.workflow_check_interval)
    (hme : env.markErrorOk = true) :
    waitForSuccessWorkflow env.pollStatus t.workflow_timeout
        t.workflow_check_interval =
      .timedOut (t.workflow_timeout / t.workflow_check_interval + 1)
        ((t.workflow_timeout / t.workflow_check_interval + 1) *
          t.workflow_check_interval) ∧
    t.workflow_timeout <
      (t.workflow_timeout / t.workflow_check_interval + 1) *
        t.workflow_check_interval ∧
    (t.workflow_timeout / t.workflow_check_interval + 1) *
        t.workflow_check_interval ≤
      t.workflow_timeout + t.workflow_check_interval ∧
    t.run env s = (.ok (),
      { status := .failed, error := some ("failed to stop deployment: timeout") },
      [.write .stopping, .externalCall, .write .failed]) := by
  have hw := waitForSuccessWorkflow_all_pending env.pollStatus
    t.workflow_timeout t.workflow_check_interval hp hi
  refine ⟨hw, timeout_elapsed_gt _ _ hi, timeout_elapsed_le _ _, ?_⟩
  unfold StoppingTask.run githubStopAndWait
  simp [hs, hget, hinst, hupd, hclean, hw, hme, markAsError, DeployError.text]

/-- Witness for C8 at a concrete input: timeout 12, interval 5, every poll
pending — the wait times out after 3 polls at elapsed time 15 ≤ 17, and the
deployment ends `Failed` with the timeout text. -/
theorem timeout_path_witness :
    waitForSuccessWorkflow (fun _ => .pendingRun) 12 5 =
      .timedOut (12 / 5 + 1) ((12 / 5 + 1) * 5) ∧
    12 < (12 / 5 + 1) * 5 ∧
    (12 / 5 + 1) * 5 ≤ 12 + 5 ∧
    StoppingTask.run ⟨1, 12, 5⟩
      { getOk := true, getInstanceOk := true, updateStatusOk := true,
        cleanupResult := .ok (), pollStatus := fun _ => .pendingRun,
        markFinishedOk := true, markErrorOk := true }
      { status := .running, error := none } = (.ok (),
      { status := .failed, error := some ("failed to stop deployment: timeout") },
      [.write .stopping, .externalCall, .write .failed]) :=
  timeout_path ⟨1, 12, 5⟩
    { getOk := true, getInstanceOk := true, updateStatusOk := true,
      cleanupResult := .ok (), pollStatus := fun _ => .pendingRun,
      markFinishedOk := true, markErrorOk := true }
    { status := .running, error := none }
    rfl rfl rfl rfl rfl (fun _ => rfl) (by decide) rfl
